import Mathlib

/-!
Shallow embedding of `src/PyHook/pipeline.py` (reshade-PyHook).

Modelling conventions:
* Python dynamic values flowing through the settings codec are modelled by
  `PyValue` (bool, int, float).  Python floats are modelled as exact
  rationals; none of the embedded operations performs arithmetic beyond
  conversion, so no rounding behaviour is involved.
* Python dicts that the code iterates in insertion order are modelled as
  association lists `List (String × _)`; `dict` key uniqueness corresponds
  to `Nodup` hypotheses where a proof needs it.
* Raising an exception is modelled by an `Except _` error result (or, for
  `change_settings`, a `none` final state next to the trace of the side
  effects that already happened before the raise).
* Filesystem interaction is modelled by explicit function parameters
  (`isdir`, the glob listing) and by the `SettingsFile` state of the
  persisted JSON file.
-/

namespace PyHook

/-- A Python value as it appears in pipeline settings: `bool`, `int` or
`float`.  Floats are modelled as exact rationals (see module docstring). -/
inductive PyValue where
  | VBool : Bool → PyValue
  | VInt : Int → PyValue
  | VFloat : ℚ → PyValue
deriving DecidableEq, Repr

/-- The check `str(value) in ["True", "False"]` from
`Pipeline._to_internal_type` (pipeline.py line 110).  In Python this test
holds exactly for the two `bool` values: `str` of an `int` is a decimal
numeral and `str` of a `float` always contains a digit and a dot or an
exponent, so neither can ever be the word "True" or "False". -/
def strIsBoolWord : PyValue → Bool
  | .VBool _ => true
  | _ => false

/-- Python `isinstance(value, int)` (pipeline.py line 112).  `bool` is a
subclass of `int` in Python, so it also satisfies the test. -/
def pyIsInstanceInt : PyValue → Bool
  | .VBool _ => true
  | .VInt _ => true
  | .VFloat _ => false

/-- Python `bool(value)`: identity on bools, nonzero test on numbers. -/
def pybool : PyValue → Bool
  | .VBool b => b
  | .VInt n => n ≠ 0
  | .VFloat q => q ≠ 0

/-- Python `int(value)`: bools map to 0 and 1, ints are unchanged, floats
are truncated toward zero. -/
def pyint : PyValue → Int
  | .VBool b => if b then 1 else 0
  | .VInt n => n
  | .VFloat q => if 0 ≤ q then ⌊q⌋ else -⌊-q⌋

/-- Python `float(value)`: the numeric wire form in which setting values
travel (the `new_value: float` parameters of the pipeline API). -/
def pyfloat : PyValue → ℚ
  | .VBool b => if b then 1 else 0
  | .VInt n => n
  | .VFloat q => q

/-!
`_COMBO_TAG_REGEX = re.compile(r"^%COMBO\[(.*?,)*.*?\].*$")` used with
`re.match` (pipeline.py lines 23 and 113).  The group `(.*?,)*.*?` matches
every newline-free string, so the pattern accepts exactly the strings of
the shape `"%COMBO[" ++ a ++ "]" ++ b` where `a` contains no newline and
`b` contains no newline except possibly as its final character (`.` does
not match a newline without `re.DOTALL`, and `$` without `re.MULTILINE`
matches at the end of the string or just before a terminal newline;
`re.match` anchors only at the start).
-/

/-- The region matched by the trailing `.*$`: no newline may occur except
possibly as the very last character. -/
def comboTail : List Char → Bool
  | [] => true
  | [_] => true
  | c :: rest => (c != '\n') && comboTail rest

/-- Scan for a closing bracket `]` reachable through newline-free text,
followed by a region accepted by `comboTail`.  A candidate `]` may also be
skipped (consumed by `.*?`) in favour of a later one. -/
def comboScan : List Char → Bool
  | [] => false
  | c :: rest =>
    if c = ']' then comboTail rest || comboScan rest
    else if c = '\n' then false
    else comboScan rest

/-- `_COMBO_TAG_REGEX.match(tooltip)` viewed as a boolean. -/
def comboTagMatch (s : String) : Bool :=
  match s.toList with
  | '%' :: 'C' :: 'O' :: 'M' :: 'B' :: 'O' :: '[' :: rest => comboScan rest
  | _ => false

/-- `Pipeline._to_internal_type` (pipeline.py lines 96-116): internal type
code of a settings default value.  0 = bool, 1 = int, 2 = float,
3 = int shown as a combo box selection. -/
def toInternalType (value : PyValue) (tooltip : String) : Nat :=
  if strIsBoolWord value then 0
  else if pyIsInstanceInt value then
    if comboTagMatch tooltip then 3 else 1
  else 2

/-- The body of `Pipeline._to_value` (pipeline.py lines 118-132) once the
internal type code of the key has been looked up in `self.mappings`. -/
def toValueAux (code : Nat) (value : PyValue) : PyValue :=
  if code = 0 then .VBool (pybool value)
  else if code = 1 ∨ code = 3 then .VInt (pyint value)
  else value

/-- One settings variable `[value, min, max, step, tooltip]`
(`settings: Dict[str, List[Any]]` entries, pipeline.py docstrings). -/
structure SettingVar where
  value : PyValue
  minVal : PyValue
  maxVal : PyValue
  stepVal : PyValue
  tooltip : String
deriving DecidableEq, Repr

/-- Presence flags of the optional plugin callbacks stored in
`PipelineCallbacks` (pipeline.py lines 34-61).  The callbacks are external
plugin code; their bodies are opaque, only presence matters to the control
flow of `pipeline.py`, and their invocations are recorded as trace events. -/
structure PipelineCallbacks where
  hasOnLoad : Bool
  hasOnUnload : Bool
  hasBeforeChangeSettings : Bool
  hasAfterChangeSettings : Bool
deriving DecidableEq, Repr

/-- The `Pipeline` object state (pipeline.py lines 64-94).  `mappings` is a
stored field because the source computes it once in `__init__` from the
initial settings; `mkPipeline` below is the constructor. -/
structure Pipeline where
  path : String
  file : String
  name : String
  callbacks : PipelineCallbacks
  version : String
  desc : String
  settings : Option (List (String × SettingVar))
  mappings : List (String × Nat)
deriving DecidableEq, Repr

/-- Lookup in an association list modelling a Python `dict` read `m[k]`;
`none` models a `KeyError`. -/
def mapLookup {α : Type} (m : List (String × α)) (k : String) : Option α :=
  (m.find? (fun kv => kv.1 == k)).map Prod.snd

/-- `os.path.basename`: the path component after the final separator. -/
def pybasename (path : String) : String :=
  String.mk (path.toList.reverse.takeWhile (fun c => c != '/')).reverse

/-- `Pipeline.__init__` (pipeline.py lines 76-94): stores the fields, sets
`file = basename(path)` and computes `mappings` from the initial value and
tooltip of every settings variable. -/
def mkPipeline (path name : String) (callbacks : PipelineCallbacks)
    (version desc : String) (settings : Option (List (String × SettingVar))) :
    Pipeline :=
  { path := path
    file := pybasename path
    name := name
    callbacks := callbacks
    version := version
    desc := desc
    settings := settings
    mappings :=
      match settings with
      | none => []
      | some s => s.map (fun kv => (kv.1, toInternalType kv.2.value kv.2.tooltip)) }

/-- `Pipeline._to_value` (pipeline.py lines 118-132): `self.mappings[key]`
may raise `KeyError` (`none`), otherwise the value is converted by the
internal type code of the key. -/
def Pipeline.toValue (p : Pipeline) (key : String) (value : PyValue) : Option PyValue :=
  (mapLookup p.mappings key).map (fun code => toValueAux code value)

/-- The line `self.settings[key][0] = v` (pipeline.py line 144): write slot
0 of the variable list stored under `key`. -/
def setSettingValue (s : List (String × SettingVar)) (key : String) (v : PyValue) :
    List (String × SettingVar) :=
  s.map (fun kv => if kv.1 = key then (kv.1, { kv.2 with value := v }) else kv)

/-- Observable events of one `change_settings` call, in program order. -/
inductive SettingsEvent where
  | beforeCB (key : String) (newValue : ℚ)
  | storeValue (key : String) (stored : PyValue)
  | afterCB (key : String) (newValue : ℚ)
deriving DecidableEq, Repr

/-- `Pipeline.change_settings` (pipeline.py lines 134-146).  Returns the
trace of events that happened and the final pipeline state; the state is
`none` when the call raised.  The assignment statement evaluates its right
hand side `self._to_value(key, new_value)` first, so an unknown key raises
`KeyError` out of `self.mappings[key]` after the before-callback already
ran but before anything is stored and before the after-callback. -/
def change_settings (p : Pipeline) (enabled : Bool) (key : String) (newValue : ℚ) :
    List SettingsEvent × Option Pipeline :=
  let pre : List SettingsEvent :=
    if enabled && p.callbacks.hasBeforeChangeSettings then [.beforeCB key newValue] else []
  match mapLookup p.mappings key with
  | none => (pre, none)
  | some code =>
    let stored := toValueAux code (.VFloat newValue)
    let post : List SettingsEvent :=
      if enabled && p.callbacks.hasAfterChangeSettings then [.afterCB key newValue] else []
    (pre ++ [.storeValue key stored] ++ post,
     some { p with settings := p.settings.map (fun s => setSettingValue s key stored) })

/-- The exception of pipeline.py lines 30-31. -/
inductive FrameSizeModificationError where
  | mk
deriving DecidableEq, Repr

/-- A numpy array as seen by `process_frame`: its shape tuple and its flat
contents.  Only the shape is inspected by the embedded code. -/
structure Frame where
  shape : List Nat
  data : List Int
deriving DecidableEq, Repr

/-- `Pipeline.process_frame` (pipeline.py lines 153-177) with the
`on_frame_process` plugin callback passed explicitly (it is external plugin
code stored in `self.callbacks`).  Raises `FrameSizeModificationError`
when the callback changed the shape, otherwise returns the callback
output. -/
def process_frame (onFrameProcess : Frame → Int → Int → Int → Frame)
    (frame : Frame) (width height frameNum : Int) :
    Except FrameSizeModificationError Frame :=
  let inputShape := frame.shape
  let frame2 := onFrameProcess frame width height frameNum
  let outputShape := frame2.shape
  if inputShape ≠ outputShape then .error .mk
  else .ok frame2

/-- The exception of pipeline.py lines 26-27. -/
inductive PipelinesDirNotFoundError where
  | mk
deriving DecidableEq, Repr

/-- `_PIPELINE_DIRS` (pipeline.py line 22). -/
def PIPELINE_DIRS : List String := ["./pipelines", "./PyHook/pipelines"]

/-- The directory resolution loop of `load_pipelines` (pipeline.py lines
255-258).  The loop has no `break`, so every existing candidate overwrites
`pipeline_dir` and the last existing one wins.  `abspath` is modelled as
the identity on paths. -/
def resolvePipelineDir (isdir : String → Bool) : Option String :=
  PIPELINE_DIRS.foldl (fun acc path => if isdir path then some path else acc) none

/-- Modelled from the words of the spec sentence behind claim C1, for
comparison with `resolvePipelineDir`: the FIRST existing directory among
the prioritized candidates. -/
def firstExistingDir (isdir : String → Bool) : Option String :=
  PIPELINE_DIRS.find? isdir

/-- The attribute surface of a successfully executed candidate module file
as probed by `_build_pipeline` via `hasattr` (pipeline.py lines 219-238).
Attribute values other than presence are carried where `_build_pipeline`
copies them into the `Pipeline`. -/
structure PyModule where
  hasOnFrameProcess : Bool
  hasOnLoad : Bool
  hasOnUnload : Bool
  hasBeforeChangeSettings : Bool
  hasAfterChangeSettings : Bool
  nameAttr : Option String
  versionAttr : Option String
  descAttr : Option String
  settingsAttr : Option (List (String × SettingVar))
deriving DecidableEq, Repr

/-- Executing a candidate file either raises (any exception) or yields a
module object. -/
inductive ModuleExecResult where
  | execError
  | execOk (m : PyModule)
deriving DecidableEq, Repr

/-- Python `basename(path)[:-3]`: module name of a candidate file. -/
def moduleName (path : String) : String :=
  let cs := (pybasename path).toList
  String.mk (cs.take (cs.length - 3))

/-- `_build_pipeline` (pipeline.py lines 205-239): raises `ValueError`
when the module lacks the mandatory `on_frame_process` callback, otherwise
builds the `Pipeline` with `hasattr`-guarded defaults. -/
def build_pipeline (m : PyModule) (name path : String) : Except String Pipeline :=
  if !m.hasOnFrameProcess then
    .error "Invalid pipeline file. Missing on_frame_process(numpy.array,int,int,int)->numpy.array callback."
  else
    .ok (mkPipeline path (m.nameAttr.getD name)
      { hasOnLoad := m.hasOnLoad
        hasOnUnload := m.hasOnUnload
        hasBeforeChangeSettings := m.hasBeforeChangeSettings
        hasAfterChangeSettings := m.hasAfterChangeSettings }
      (m.versionAttr.getD "") (m.descAttr.getD "") m.settingsAttr)

/-- The body of one iteration of the scan loop of `load_pipelines`
(pipeline.py lines 265-279) as a partial function: `none` when the file
was skipped (module execution raised, or `_build_pipeline` raised),
otherwise the `(pipeline.file, pipeline)` entry that is inserted. -/
def loadOne (entry : String × ModuleExecResult) : Option (String × Pipeline) :=
  match entry.2 with
  | .execError => none
  | .execOk m =>
    match build_pipeline m (moduleName entry.1) entry.1 with
    | .error _ => none
    | .ok p => some (p.file, p)

/-- `load_pipelines` (pipeline.py lines 242-280).  The filesystem is
abstracted by `isdir` and by `globPy`, the `glob.glob(f"{dir}/*.py")`
listing of a directory paired with the result of executing each file.
Distinct files of one directory have distinct basenames, so the dict
insert `pipelines[pipeline.file] = pipeline` is modelled by appending. -/
def load_pipelines (isdir : String → Bool)
    (globPy : String → List (String × ModuleExecResult)) :
    Except PipelinesDirNotFoundError (List (String × Pipeline)) :=
  match resolvePipelineDir isdir with
  | none => .error .mk
  | some dir =>
    .ok ((globPy dir).foldl (fun acc entry =>
      match loadOne entry with
      | none => acc
      | some kv => acc ++ [kv]) [])

/-- The parsed content of a well-formed `pyhook.json` settings file: the
`"order"` list, the `"active"` list, and the per-plugin entries mapping a
setting key to its persisted raw value (pipeline.py lines 292-301). -/
structure SettingsJson where
  order : List String
  active : List String
  plugins : List (String × List (String × PyValue))
deriving DecidableEq, Repr

/-- State of the persisted settings file as observed by `load_settings`:
absent, present but unparseable or structurally broken (`json.load` or the
`settings["order"]` access raises), or well formed. -/
inductive SettingsFile where
  | missing
  | malformed
  | valid (s : SettingsJson)
deriving DecidableEq, Repr

/-- `PipelineRuntimeData` (pipeline.py lines 185-202). -/
structure PipelineRuntimeData where
  pipeline_order : List String
  active_pipelines : List String
  to_unload : List String
  to_load : List String
  changes : List (String × List (String × ℚ))
deriving DecidableEq, Repr

/-- Loaded pipelines map, keyed by `Pipeline.file`, in discovery order. -/
abbrev Pipelines := List (String × Pipeline)

/-- The keys of the pipelines map in discovery order
(`list(pipelines.keys())`). -/
def keysOf (ps : Pipelines) : List String := ps.map Prod.fst

/-- The record entry `save_settings` produces for one pipeline: `none` for
a pipeline whose `settings` is `None` (no entry is written), otherwise the
mapping of each setting key to slot 0 of its variable list (the current
raw value only, pipeline.py lines 295-299). -/
def saveEntry (kv : String × Pipeline) : Option (String × List (String × PyValue)) :=
  kv.2.settings.map (fun s => (kv.1, s.map (fun sv => (sv.1, sv.2.value))))

/-- `save_settings` (pipeline.py lines 283-301) up to JSON serialization:
the record written to `pyhook.json` holds `order`, `active`, and one entry
per pipeline whose `settings` is not `None`. -/
def save_settings (ps : Pipelines) (order active : List String) : SettingsJson :=
  { order := order
    active := active
    plugins := ps.filterMap saveEntry }

/-- The inner update loop of `load_settings` for one pipeline (pipeline.py
lines 322-324): for every persisted key present in the settings dict of
the pipeline, overwrite slot 0 with the persisted value. -/
def updatePipelineSettings (p : Pipeline) (kvs : List (String × PyValue)) : Pipeline :=
  match p.settings with
  | none => p
  | some s =>
    { p with settings := some (kvs.foldl (fun s2 kv =>
        if (mapLookup s2 kv.1).isSome then setSettingValue s2 kv.1 kv.2 else s2) s) }

/-- One iteration of the outer update loop of `load_settings` (pipeline.py
lines 318-324): skip the `"order"` and `"active"` entries, skip unknown
pipelines and pipelines without settings, otherwise update the pipeline
stored under this key. -/
def applyOne (acc : Pipelines) (entry : String × List (String × PyValue)) : Pipelines :=
  if entry.1 = "order" ∨ entry.1 = "active" then acc
  else
    match mapLookup acc entry.1 with
    | none => acc
    | some p =>
      if p.settings.isSome then
        acc.map (fun kv =>
          if kv.1 = entry.1 then (kv.1, updatePipelineSettings kv.2 entry.2) else kv)
      else acc

/-- The whole update loop of `load_settings` over the persisted per-plugin
entries. -/
def applyStoredSettings (ps : Pipelines) (s : SettingsJson) : Pipelines :=
  s.plugins.foldl applyOne ps

/-- `load_settings` (pipeline.py lines 304-330).  When the file is absent
the defaults are returned with `was_persisted = false`; when the file is
present but malformed the exception of `json.load` (or of the
`settings["order"]` access) propagates, modelled by `.error`; when the
file is well formed the stored values are written back, the persisted
order is reconciled with the loaded keys and `was_persisted = true`. -/
def load_settings (ps : Pipelines) (file : SettingsFile) :
    Except Unit (Pipelines × PipelineRuntimeData × Bool) :=
  match file with
  | .missing => .ok (ps, ⟨keysOf ps, [], [], [], []⟩, false)
  | .malformed => .error ()
  | .valid s =>
    let ps2 := applyStoredSettings ps s
    let order := s.order.filter (fun k => (mapLookup ps2 k).isSome)
        ++ (keysOf ps2).filter (fun k => !(s.order.contains k))
    let active := s.active.filter (fun k => (mapLookup ps2 k).isSome)
    .ok (ps2, ⟨order, active, [], active, []⟩, true)

/-!
Concrete fixtures used by witness theorems.
-/

/-- Settings of the example gamma pipeline. -/
def gammaSettings : List (String × SettingVar) :=
  [("level",
    { value := .VFloat 1, minVal := .VFloat 0, maxVal := .VFloat 10,
      stepVal := .VFloat 1, tooltip := "Gamma level" })]

/-- An example pipeline with both settings-change callbacks present. -/
def gammaPipeline : Pipeline :=
  mkPipeline "./pipelines/gamma.py" "Gamma"
    { hasOnLoad := false, hasOnUnload := false,
      hasBeforeChangeSettings := true, hasAfterChangeSettings := true }
    "1.0" "Gamma correction" (some gammaSettings)

/-- A concrete 2 by 2 RGB frame. -/
def frameW : Frame :=
  { shape := [2, 2, 3], data := [0, 1, 2, 3, 4, 5, 6, 7, 8, 9, 10, 11] }

/-- A filesystem in which only the first candidate directory exists. -/
def isdirW : String → Bool := fun d => d == "./pipelines"

/-- A module providing the mandatory callback. -/
def modGood : PyModule :=
  { hasOnFrameProcess := true, hasOnLoad := true, hasOnUnload := false,
    hasBeforeChangeSettings := false, hasAfterChangeSettings := false,
    nameAttr := some "OK", versionAttr := none, descAttr := none,
    settingsAttr := none }

/-- A module missing the mandatory `on_frame_process` callback. -/
def modBad : PyModule :=
  { hasOnFrameProcess := false, hasOnLoad := false, hasOnUnload := false,
    hasBeforeChangeSettings := false, hasAfterChangeSettings := false,
    nameAttr := none, versionAttr := none, descAttr := none,
    settingsAttr := none }

/-- A glob listing with one good file, one invalid file and one file whose
execution raises. -/
def globW : String → List (String × ModuleExecResult) := fun _ =>
  [("./pipelines/ok.py", .execOk modGood),
   ("./pipelines/bad.py", .execOk modBad),
   ("./pipelines/err.py", .execError)]

/-- An example pipeline with two settings variables. -/
def pipeA : Pipeline :=
  mkPipeline "./pipelines/a.py" "A"
    { hasOnLoad := false, hasOnUnload := false,
      hasBeforeChangeSettings := false, hasAfterChangeSettings := false }
    "" ""
    (some [("x",
            { value := .VInt 3, minVal := .VInt 0, maxVal := .VInt 10,
              stepVal := .VInt 1, tooltip := "" }),
           ("flag",
            { value := .VBool true, minVal := .VBool false, maxVal := .VBool true,
              stepVal := .VInt 1, tooltip := "" })])

/-- An example pipeline without settings. -/
def pipeB : Pipeline :=
  mkPipeline "./pipelines/b.py" "B"
    { hasOnLoad := false, hasOnUnload := false,
      hasBeforeChangeSettings := false, hasAfterChangeSettings := false }
    "" "" none

/-- An example loaded pipelines map. -/
def psW : Pipelines := [("a.py", pipeA), ("b.py", pipeB)]

/-- An example processing order covering all keys of `psW`. -/
def orderW : List String := ["b.py", "a.py"]

/-- An example active list inside the keys of `psW`. -/
def activeW : List String := ["a.py"]

/-!
Helper lemmas, shared between the claim theorems.
-/

/-- A dict lookup succeeds exactly on the keys of the map. -/
theorem mapLookup_isSome {α : Type} (m : List (String × α)) (k : String) :
    (mapLookup m k).isSome = decide (k ∈ m.map Prod.fst) := by
  induction m with
  | nil => rfl
  | cons kv rest ih =>
    by_cases h : kv.1 = k
    · rw [mapLookup, List.find?_cons_of_pos _ (by simp [h])]
      simp [h]
    · rw [mapLookup, List.find?_cons_of_neg _ (by simp [h])]
      rw [show ((rest.find? (fun x => x.1 == k)).map Prod.snd = mapLookup rest k) from rfl]
      rw [ih]
      have hiff : k ∈ List.map Prod.fst (kv :: rest) ↔ k ∈ List.map Prod.fst rest := by
        rw [List.map_cons, List.mem_cons]
        constructor
        · rintro (rfl | hm)
          · exact absurd rfl h
          · exact hm
        · exact Or.inr
      exact decide_eq_decide.mpr hiff.symm

/-- `List.contains` agrees with list membership on strings. -/
theorem contains_eq_mem (l : List String) (a : String) :
    l.contains a = decide (a ∈ l) := by
  induction l with
  | nil => rfl
  | cons x xs ih =>
    by_cases h : a = x <;> simp [List.contains_cons, h, ih]

/-- `applyOne` never changes the key sequence of the pipelines map. -/
theorem keysOf_applyOne (acc : Pipelines) (e : String × List (String × PyValue)) :
    keysOf (applyOne acc e) = keysOf acc := by
  unfold applyOne
  split
  · rfl
  · split
    · rfl
    · split
      · simp only [keysOf, List.map_map]
        apply List.map_congr_left
        intro kv _
        by_cases h : kv.1 = e.1 <;> simp [h]
      · rfl

/-- Folding `applyOne` never changes the key sequence. -/
theorem keysOf_foldl_applyOne (l : List (String × List (String × PyValue))) :
    ∀ ps : Pipelines, keysOf (l.foldl applyOne ps) = keysOf ps := by
  induction l with
  | nil => intro ps; rfl
  | cons e rest ih =>
    intro ps
    rw [List.foldl_cons, ih, keysOf_applyOne]

/-- `applyStoredSettings` never changes the key sequence. -/
theorem keysOf_applyStoredSettings (ps : Pipelines) (s : SettingsJson) :
    keysOf (applyStoredSettings ps s) = keysOf ps :=
  keysOf_foldl_applyOne s.plugins ps

/-- The scan loop of `load_pipelines` collects exactly the successes. -/
theorem foldl_loadOne_filterMap (l : List (String × ModuleExecResult)) :
    ∀ acc : List (String × Pipeline),
      l.foldl (fun acc entry =>
        match loadOne entry with
        | none => acc
        | some kv => acc ++ [kv]) acc = acc ++ l.filterMap loadOne := by
  induction l with
  | nil => intro acc; simp
  | cons e rest ih =>
    intro acc
    rw [List.foldl_cons]
    cases h : loadOne e with
    | none =>
      simp only [h]
      rw [ih, List.filterMap_cons_none h]
    | some kv =>
      simp only [h]
      rw [ih, List.filterMap_cons_some h]
      simp

/-- In a map with pairwise distinct keys, two entries with the same key are
the same entry. -/
theorem nodup_keys_eq {α : Type} (l : List (String × α))
    (h : (l.map Prod.fst).Nodup) {a b : String × α}
    (ha : a ∈ l) (hb : b ∈ l) (hk : a.1 = b.1) : a = b := by
  induction l with
  | nil => cases ha
  | cons x xs ih =>
    rw [List.map_cons, List.nodup_cons] at h
    obtain ⟨hx1, hx2⟩ := h
    rcases List.mem_cons.mp ha with rfl | ha2
    · rcases List.mem_cons.mp hb with rfl | hb2
      · rfl
      · exact absurd (hk ▸ List.mem_map_of_mem Prod.fst hb2) hx1
    · rcases List.mem_cons.mp hb with rfl | hb2
      · exact absurd (hk ▸ List.mem_map_of_mem Prod.fst ha2) hx1
      · exact ih hx2 ha2 hb2

/-- In a map with pairwise distinct keys, lookup of the key of an entry
returns that entry. -/
theorem mapLookup_of_mem_nodup {α : Type} (l : List (String × α))
    (hnd : (l.map Prod.fst).Nodup) {kv : String × α} (h : kv ∈ l) :
    mapLookup l kv.1 = some kv.2 := by
  induction l with
  | nil => cases h
  | cons x xs ih =>
    rw [List.map_cons, List.nodup_cons] at hnd
    obtain ⟨hx1, hx2⟩ := hnd
    rcases List.mem_cons.mp h with rfl | h2
    · rw [mapLookup, List.find?_cons_of_pos _ (by simp)]
      rfl
    · have hne : x.1 ≠ kv.1 := fun he => hx1 (he ▸ List.mem_map_of_mem Prod.fst h2)
      rw [mapLookup, List.find?_cons_of_neg _ (by simp [hne])]
      exact ih hx2 h2

/-- Writing to a setting key a value every entry with this key already has
is a no-op. -/
theorem setSettingValue_self (s : List (String × SettingVar)) (key : String)
    (v : PyValue) (h : ∀ sv ∈ s, sv.1 = key → sv.2.value = v) :
    setSettingValue s key v = s := by
  induction s with
  | nil => rfl
  | cons x xs ih =>
    show (if x.1 = key then (x.1, { x.2 with value := v }) else x)
        :: setSettingValue xs key v = x :: xs
    have hxs : setSettingValue xs key v = xs :=
      ih (fun sv hsv => h sv (List.mem_cons_of_mem x hsv))
    by_cases hx : x.1 = key
    · have hv : x.2.value = v := h x (List.mem_cons_self x xs) hx
      rw [if_pos hx, hxs, ← hv]
    · rw [if_neg hx, hxs]

/-- Writing back to a pipeline the current values of its own settings is a
no-op, provided its setting keys are pairwise distinct. -/
theorem updatePipelineSettings_self (p : Pipeline) (s : List (String × SettingVar))
    (hp : p.settings = some s) (hnd : (s.map Prod.fst).Nodup) :
    updatePipelineSettings p (s.map (fun sv => (sv.1, sv.2.value))) = p := by
  have key : ∀ (kvs : List (String × PyValue)),
      (∀ kv ∈ kvs, ∀ sv ∈ s, sv.1 = kv.1 → sv.2.value = kv.2) →
      kvs.foldl (fun s2 kv =>
        if (mapLookup s2 kv.1).isSome then setSettingValue s2 kv.1 kv.2 else s2) s = s := by
    intro kvs
    induction kvs with
    | nil => intro _; rfl
    | cons kv rest ih =>
      intro hall
      rw [List.foldl_cons]
      have hstep : (if (mapLookup s kv.1).isSome
          then setSettingValue s kv.1 kv.2 else s) = s := by
        by_cases hl : (mapLookup s kv.1).isSome
        · rw [if_pos hl]
          exact setSettingValue_self s kv.1 kv.2
            (fun sv hsv hk => hall kv (List.mem_cons_self kv rest) sv hsv hk)
        · rw [if_neg hl]
      rw [hstep]
      exact ih (fun kv2 h2 sv hsv hk => hall kv2 (List.mem_cons_of_mem kv h2) sv hsv hk)
  have hprop : ∀ kv ∈ s.map (fun sv => (sv.1, sv.2.value)),
      ∀ sv ∈ s, sv.1 = kv.1 → sv.2.value = kv.2 := by
    intro kv hkv sv hsv hk
    obtain ⟨sv0, hsv0, rfl⟩ := List.mem_map.mp hkv
    have heq : sv = sv0 := nodup_keys_eq s hnd hsv hsv0 hk
    rw [heq]
  obtain ⟨path, file, name, cbs, ver, desc, osettings, maps⟩ := p
  simp only at hp
  subst hp
  simp only [updatePipelineSettings]
  rw [key _ hprop]

/-- Applying to the pipelines map one persisted entry that was saved from
the map itself is a no-op. -/
theorem applyOne_self (ps : Pipelines) (hnd : (keysOf ps).Nodup)
    {kv : String × Pipeline} (hmem : kv ∈ ps) (s : List (String × SettingVar))
    (hset : kv.2.settings = some s) (hsnd : (s.map Prod.fst).Nodup) :
    applyOne ps (kv.1, s.map (fun sv => (sv.1, sv.2.value))) = ps := by
  have hlook : mapLookup ps kv.1 = some kv.2 := mapLookup_of_mem_nodup ps hnd hmem
  unfold applyOne
  split
  · rfl
  · simp only [hlook]
    rw [if_pos (by simp [hset])]
    refine (List.map_congr_left ?_).trans (List.map_id ps)
    intro x hx
    simp only [id]
    by_cases hxk : x.1 = kv.1
    · have hxkv : x = kv := nodup_keys_eq ps hnd hx hmem hxk
      subst hxkv
      rw [if_pos hxk, updatePipelineSettings_self x.2 s hset hsnd]
    · rw [if_neg hxk]

/-- Applying the whole record that `save_settings` produced from the map
itself leaves the map unchanged. -/
theorem applyStoredSettings_save_self (ps : Pipelines) (order active : List String)
    (hnd : (keysOf ps).Nodup)
    (hset : ∀ kv ∈ ps, ((kv.2.settings.getD []).map Prod.fst).Nodup) :
    applyStoredSettings ps (save_settings ps order active) = ps := by
  have main : ∀ (l : List (String × Pipeline)), (∀ kv ∈ l, kv ∈ ps) →
      (l.filterMap saveEntry).foldl applyOne ps = ps := by
    intro l
    induction l with
    | nil => intro _; rfl
    | cons kv rest ih =>
      intro hl
      cases hs : kv.2.settings with
      | none =>
        have hfm : saveEntry kv = none := by
          simp [saveEntry, hs]
        rw [List.filterMap_cons_none hfm]
        exact ih (fun x hx => hl x (List.mem_cons_of_mem kv hx))
      | some s =>
        have hfm : saveEntry kv = some (kv.1, s.map (fun sv => (sv.1, sv.2.value))) := by
          simp [saveEntry, hs]
        rw [List.filterMap_cons_some hfm]
        rw [List.foldl_cons]
        have hsnd : (s.map Prod.fst).Nodup := by
          have := hset kv (hl kv (List.mem_cons_self kv rest))
          rw [hs] at this
          simpa using this
        rw [applyOne_self ps hnd (hl kv (List.mem_cons_self kv rest)) s hs hsnd]
        exact ih (fun x hx => hl x (List.mem_cons_of_mem kv hx))
  exact main ps (fun kv h => h)

/-!
Claim theorems.
-/

/-- C1, counterexample: when both candidate directories exist, the
resolution loop of `load_pipelines` picks `"./PyHook/pipelines"`, the LAST
existing candidate, while the claim says the FIRST existing candidate
`"./pipelines"` is picked. -/
theorem load_pipelines_first_dir_counterexample :
    resolvePipelineDir (fun _ => true) = some "./PyHook/pipelines"
    ∧ firstExistingDir (fun _ => true) = some "./pipelines"
    ∧ resolvePipelineDir (fun _ => true) ≠ firstExistingDir (fun _ => true) :=
  ⟨rfl, rfl, by decide⟩

/-- C1 (amended): `load_pipelines` resolves the pipelines root as the LAST
existing directory among the candidate list `["./pipelines",
"./PyHook/pipelines"]` (the resolution loop has no break, so a later
existing candidate overwrites an earlier one); if no candidate is an
existing directory it raises `PipelinesDirNotFoundError` and no plugin
loading occurs. -/
theorem load_pipelines_dir_resolution (isdir : String → Bool)
    (globPy : String → List (String × ModuleExecResult)) :
    resolvePipelineDir isdir = (PIPELINE_DIRS.filter isdir).getLast?
    ∧ ((∀ d ∈ PIPELINE_DIRS, isdir d = false) →
        load_pipelines isdir globPy = .error .mk) := by
  constructor
  · cases h1 : isdir "./pipelines" <;> cases h2 : isdir "./PyHook/pipelines" <;>
      simp [resolvePipelineDir, PIPELINE_DIRS, List.filter_cons, h1, h2]
  · intro hall
    have h1 := hall "./pipelines" (by simp [PIPELINE_DIRS])
    have h2 := hall "./PyHook/pipelines" (by simp [PIPELINE_DIRS])
    simp [load_pipelines, resolvePipelineDir, PIPELINE_DIRS, h1, h2]

/-- C1, witness: with no candidate directory existing, `load_pipelines`
raises and returns no pipelines. -/
theorem load_pipelines_dir_resolution_witness :
    (∀ d ∈ PIPELINE_DIRS, (fun _ : String => false) d = false)
    ∧ load_pipelines (fun _ => false) (fun _ => []) = .error .mk :=
  ⟨by decide,
   (load_pipelines_dir_resolution (fun _ => false) (fun _ => [])).2 (by decide)⟩

/-- C2, counterexample: a persisted configuration file that exists but is
malformed is NOT treated as missing: the `json.load` exception propagates
out of `load_settings` and no `PipelineRuntimeData` is returned, while the
claim says the defaults with `was_persisted = false` are returned. -/
theorem load_settings_malformed_counterexample :
    load_settings [] .malformed = .error ()
    ∧ load_settings [] .malformed ≠ .ok ([], ⟨[], [], [], [], []⟩, false) :=
  ⟨rfl, fun h => Except.noConfusion h⟩

/-- C2 (amended): when the persisted configuration file is MISSING,
`load_settings` treats it as no persisted configuration: it returns
`PipelineRuntimeData` with `pipeline_order` equal to all loaded plugin
keys in discovery order, empty `active_pipelines`, `to_load`, `to_unload`
and `changes`, `was_persisted = false`, and every plugin left at its
compiled-in settings; when the file exists but is MALFORMED, the parse
exception propagates instead. -/
theorem load_settings_missing_defaults (ps : Pipelines) :
    load_settings ps .missing = .ok (ps, ⟨keysOf ps, [], [], [], []⟩, false)
    ∧ load_settings ps .malformed = .error () :=
  ⟨rfl, rfl⟩

/-- C3: when a well-formed persisted configuration exists, `load_settings`
returns `was_persisted = true` and a runtime state whose `pipeline_order`
is the persisted order filtered to currently loaded plugin keys followed
by the newly discovered keys in discovery order, whose `active_pipelines`
is the persisted active list filtered to currently loaded keys (stale
references silently dropped, never an error), whose `to_unload` and
`changes` are empty, and whose `to_load` equals the reconciled active
list. -/
theorem load_settings_persisted_reconciliation (ps : Pipelines) (s : SettingsJson) :
    load_settings ps (.valid s) =
      .ok (applyStoredSettings ps s,
        { pipeline_order :=
            s.order.filter (fun k => decide (k ∈ keysOf ps))
              ++ (keysOf ps).filter (fun k => decide (k ∉ s.order)),
          active_pipelines := s.active.filter (fun k => decide (k ∈ keysOf ps)),
          to_unload := [],
          to_load := s.active.filter (fun k => decide (k ∈ keysOf ps)),
          changes := [] },
        true) := by
  have hk := keysOf_applyStoredSettings ps s
  have e1 : (fun k => (mapLookup (applyStoredSettings ps s) k).isSome)
      = (fun k => decide (k ∈ keysOf ps)) := by
    funext k
    rw [mapLookup_isSome]
    show decide (k ∈ keysOf (applyStoredSettings ps s)) = decide (k ∈ keysOf ps)
    rw [hk]
  have e2 : (fun k => !(s.order.contains k)) = (fun k => decide (k ∉ s.order)) := by
    funext k
    rw [contains_eq_mem]
    exact decide_not.symm
  simp only [load_settings]
  rw [e1, e2, hk]

/-- C4: for every input frame, `process_frame` raises
`FrameSizeModificationError` exactly when the buffer returned by the
`on_frame_process` callback of the plugin has a shape different from the
input frame shape, in which case no frame is returned for that frame;
when the shape is unchanged it returns the callback output buffer. -/
theorem process_frame_shape_guard (fn : Frame → Int → Int → Int → Frame)
    (frame : Frame) (w h n : Int) :
    (process_frame fn frame w h n = .error .mk ↔ (fn frame w h n).shape ≠ frame.shape)
    ∧ ((fn frame w h n).shape = frame.shape →
        process_frame fn frame w h n = .ok (fn frame w h n)) := by
  have hdef : process_frame fn frame w h n
      = if frame.shape ≠ (fn frame w h n).shape
          then Except.error FrameSizeModificationError.mk
          else Except.ok (fn frame w h n) := rfl
  by_cases hsh : (fn frame w h n).shape = frame.shape
  · rw [hdef, if_neg (not_not_intro hsh.symm)]
    exact ⟨⟨fun he => Except.noConfusion he, fun hne => absurd hsh hne⟩, fun _ => rfl⟩
  · rw [hdef, if_pos (fun he => hsh he.symm)]
    exact ⟨⟨fun _ => hsh, fun _ => rfl⟩, fun he => absurd he hsh⟩

/-- C4, witness: a shape-preserving callback returns its output frame, a
shape-changing callback raises. -/
theorem process_frame_shape_guard_witness :
    ((fun f _ _ _ => { f with data := f.data.map (fun x => x + 1) }
        : Frame → Int → Int → Int → Frame) frameW 2 2 0).shape = frameW.shape
    ∧ process_frame (fun f _ _ _ => { f with data := f.data.map (fun x => x + 1) })
        frameW 2 2 0
      = .ok ((fun f _ _ _ => { f with data := f.data.map (fun x => x + 1) }
        : Frame → Int → Int → Int → Frame) frameW 2 2 0)
    ∧ process_frame (fun _ _ _ _ => { shape := [1], data := [0] }) frameW 2 2 0
      = .error .mk :=
  ⟨rfl,
   (process_frame_shape_guard _ frameW 2 2 0).2 rfl,
   (process_frame_shape_guard _ frameW 2 2 0).1.mpr (by decide)⟩

/-- C5: settings type inference assigns internal type codes in priority
order: boolean (code 0) whenever the string form of the default value is
exactly "True" or "False", regardless of tooltip content; enumerated
integer (code 3) whenever the default is an integer and the tooltip
matches the combo-box tag regex; plain integer (code 1) for any other
integer default; floating point (code 2) for everything else. -/
theorem settings_type_inference (v : PyValue) (t : String) :
    (strIsBoolWord v = true → toInternalType v t = 0)
    ∧ (∀ n : Int, toInternalType (.VInt n) t = if comboTagMatch t then 3 else 1)
    ∧ (∀ q : ℚ, toInternalType (.VFloat q) t = 2) := by
  refine ⟨fun hb => ?_, fun n => ?_, fun q => ?_⟩
  · simp [toInternalType, hb]
  · simp [toInternalType, strIsBoolWord, pyIsInstanceInt]
  · simp [toInternalType, strIsBoolWord, pyIsInstanceInt]

/-- C5, witness: a boolean default gets code 0 even under a combo tooltip;
an integer default under a matching combo tooltip gets code 3; a float
default gets code 2. -/
theorem settings_type_inference_witness :
    strIsBoolWord (.VBool true) = true
    ∧ toInternalType (.VBool true) "%COMBO[a,b]sel" = 0
    ∧ comboTagMatch "%COMBO[a,b]sel" = true
    ∧ toInternalType (.VInt 2) "%COMBO[a,b]sel" = 3
    ∧ toInternalType (.VFloat 1) "%COMBO[a,b]sel" = 2 := by
  refine ⟨rfl, (settings_type_inference (.VBool true) "%COMBO[a,b]sel").1 rfl, rfl, ?_, ?_⟩
  · have h := (settings_type_inference (.VBool true) "%COMBO[a,b]sel").2.1 2
    rw [h]
    rfl
  · exact (settings_type_inference (.VBool true) "%COMBO[a,b]sel").2.2 1

/-- C6: the settings codec round-trips and is idempotent: decoding, via
the inferred type code, the numeric encoding of a boolean, integer, or
float value returns the original value; decoding an already correctly
typed value is a no-op; and decoding twice equals decoding once for every
type code. -/
theorem settings_codec_roundtrip :
    (∀ (v : PyValue) (t : String),
        toValueAux (toInternalType v t) (.VFloat (pyfloat v)) = v)
    ∧ (∀ (v : PyValue) (t : String), toValueAux (toInternalType v t) v = v)
    ∧ (∀ (code : Nat) (x : PyValue),
        toValueAux code (toValueAux code x) = toValueAux code x) := by
  have hint : ∀ n : Int, pyint (.VFloat (n : ℚ)) = n := by
    intro n
    by_cases h0 : (0 : ℚ) ≤ (n : ℚ)
    · simp [pyint, h0, Int.floor_intCast]
    · rw [pyint, if_neg h0, ← Int.cast_neg, Int.floor_intCast]
      omega
  refine ⟨fun v t => ?_, fun v t => ?_, fun code x => ?_⟩
  · cases v with
    | VBool b =>
      have hc : toInternalType (.VBool b) t = 0 := by simp [toInternalType, strIsBoolWord]
      rw [hc]
      cases b <;> norm_num [toValueAux, pyfloat, pybool]
    | VInt n =>
      have hc : toInternalType (.VInt n) t = if comboTagMatch t then 3 else 1 := by
        simp [toInternalType, strIsBoolWord, pyIsInstanceInt]
      rw [hc]
      by_cases hcm : comboTagMatch t <;>
        simp [hcm, toValueAux, pyfloat, hint n]
    | VFloat q =>
      have hc : toInternalType (.VFloat q) t = 2 := by
        simp [toInternalType, strIsBoolWord, pyIsInstanceInt]
      rw [hc]
      norm_num [toValueAux, pyfloat]
  · cases v with
    | VBool b =>
      have hc : toInternalType (.VBool b) t = 0 := by simp [toInternalType, strIsBoolWord]
      rw [hc]
      norm_num [toValueAux, pybool]
    | VInt n =>
      have hc : toInternalType (.VInt n) t = if comboTagMatch t then 3 else 1 := by
        simp [toInternalType, strIsBoolWord, pyIsInstanceInt]
      rw [hc]
      by_cases hcm : comboTagMatch t <;> simp [hcm, toValueAux, pyint]
    | VFloat q =>
      have hc : toInternalType (.VFloat q) t = 2 := by
        simp [toInternalType, strIsBoolWord, pyIsInstanceInt]
      rw [hc]
      norm_num [toValueAux]
  · by_cases h0 : code = 0
    · simp [toValueAux, h0, pybool]
    · by_cases h13 : code = 1 ∨ code = 3
      · simp [toValueAux, h0, h13, pyint]
      · simp [toValueAux, h0, h13]

/-- C7: `change_settings(enabled, key, new_value)` on a declared key emits
the before-callback (only when `enabled` and the callback is present)
strictly before the store of the decoded value into the settings slot of
`key`, and the after-callback (under the same condition) strictly after
the store; the stored value is the decoded, internally typed value. -/
theorem change_settings_callback_order (p : Pipeline) (enabled : Bool)
    (key : String) (v : ℚ) (code : Nat) (s : List (String × SettingVar))
    (hs : p.settings = some s) (hm : mapLookup p.mappings key = some code) :
    change_settings p enabled key v =
      ((if enabled && p.callbacks.hasBeforeChangeSettings
          then [SettingsEvent.beforeCB key v] else [])
        ++ [SettingsEvent.storeValue key (toValueAux code (.VFloat v))]
        ++ (if enabled && p.callbacks.hasAfterChangeSettings
          then [SettingsEvent.afterCB key v] else []),
       some { p with settings := some (setSettingValue s key (toValueAux code (.VFloat v))) }) := by
  unfold change_settings
  simp only [hm, hs]
  rfl

/-- C7, witness: on the gamma pipeline with both callbacks present and
`enabled = true`, the trace is before-callback, store of the decoded
value, after-callback, in this order. -/
theorem change_settings_callback_order_witness :
    gammaPipeline.settings = some gammaSettings
    ∧ mapLookup gammaPipeline.mappings "level" = some 2
    ∧ change_settings gammaPipeline true "level" 5 =
        ([SettingsEvent.beforeCB "level" 5,
          SettingsEvent.storeValue "level" (.VFloat 5),
          SettingsEvent.afterCB "level" 5],
         some { gammaPipeline with
                settings := some (setSettingValue gammaSettings "level" (.VFloat 5)) }) := by
  refine ⟨rfl, rfl, ?_⟩
  have h := change_settings_callback_order gammaPipeline true "level" 5 2 gammaSettings rfl rfl
  rw [h]
  rfl

/-- C8: `load_pipelines` isolates per-plugin failures: a file whose module
execution raises is skipped, a file missing the mandatory
`on_frame_process` callback is skipped, the scan continues over the
remaining files, and the returned map holds exactly the successfully
loaded subset in scan order (an empty result is not an error). -/
theorem load_pipelines_failure_isolation (isdir : String → Bool)
    (globPy : String → List (String × ModuleExecResult)) (dir : String)
    (hdir : resolvePipelineDir isdir = some dir) :
    load_pipelines isdir globPy = .ok ((globPy dir).filterMap loadOne)
    ∧ (∀ path : String, loadOne (path, .execError) = none)
    ∧ (∀ (path : String) (m : PyModule), m.hasOnFrameProcess = false →
        loadOne (path, .execOk m) = none)
    ∧ (∀ (path : String) (m : PyModule) (p : Pipeline),
        build_pipeline m (moduleName path) path = .ok p →
        loadOne (path, .execOk m) = some (p.file, p)) := by
  refine ⟨?_, fun path => rfl, fun path m hm => ?_, fun path m p hb => ?_⟩
  · unfold load_pipelines
    simp only [hdir]
    rw [foldl_loadOne_filterMap]
    simp
  · simp [loadOne, build_pipeline, hm]
  · simp [loadOne, hb]

/-- C8, witness: out of one valid file, one file without the mandatory
callback and one file whose execution raises, exactly the valid file is
loaded. -/
theorem load_pipelines_failure_isolation_witness :
    resolvePipelineDir isdirW = some "./pipelines"
    ∧ load_pipelines isdirW globW = .ok ((globW "./pipelines").filterMap loadOne)
    ∧ (globW "./pipelines").filterMap loadOne
      = [("ok.py", mkPipeline "./pipelines/ok.py" "OK"
          { hasOnLoad := true, hasOnUnload := false,
            hasBeforeChangeSettings := false, hasAfterChangeSettings := false }
          "" "" none)] :=
  ⟨rfl,
   (load_pipelines_failure_isolation isdirW globW "./pipelines" rfl).1,
   rfl⟩

/-- C9: persistence round-trips: for a loaded pipeline map with distinct
keys and per-plugin distinct setting keys, an order covering exactly the
loaded keys and an active list inside the loaded keys, `load_settings`
applied to the record written by `save_settings` reproduces the same
order, the same active list and all the same current settings values, the
record holding `order`, `active` and one entry per plugin that has
settings, mapping each setting key to its current raw value only. -/
theorem settings_persistence_roundtrip (ps : Pipelines) (order active : List String)
    (hnd : (keysOf ps).Nodup)
    (hset : ∀ kv ∈ ps, ((kv.2.settings.getD []).map Prod.fst).Nodup)
    (hord1 : ∀ k ∈ order, k ∈ keysOf ps)
    (hord2 : ∀ k ∈ keysOf ps, k ∈ order)
    (hact : ∀ k ∈ active, k ∈ keysOf ps) :
    (save_settings ps order active).order = order
    ∧ (save_settings ps order active).active = active
    ∧ (save_settings ps order active).plugins = ps.filterMap saveEntry
    ∧ load_settings ps (.valid (save_settings ps order active)) =
        .ok (ps, ⟨order, active, [], active, []⟩, true) := by
  refine ⟨rfl, rfl, rfl, ?_⟩
  have hps : applyStoredSettings ps (save_settings ps order active) = ps :=
    applyStoredSettings_save_self ps order active hnd hset
  have e1 : order.filter (fun k => (mapLookup ps k).isSome) = order := by
    apply List.filter_eq_self.mpr
    intro k hk
    rw [mapLookup_isSome]
    exact decide_eq_true (hord1 k hk)
  have e2 : (keysOf ps).filter (fun k => !(order.contains k)) = [] := by
    apply List.filter_eq_nil_iff.mpr
    intro k hk
    simp [contains_eq_mem, hord2 k hk]
  have e3 : active.filter (fun k => (mapLookup ps k).isSome) = active := by
    apply List.filter_eq_self.mpr
    intro k hk
    rw [mapLookup_isSome]
    exact decide_eq_true (hact k hk)
  simp only [load_settings, save_settings]
  simp only [save_settings] at hps
  rw [hps, e1, e2, e3]
  simp

/-- C9, witness: a concrete two-pipeline map (one with settings, one
without) round-trips through save and load. -/
theorem settings_persistence_roundtrip_witness :
    (keysOf psW).Nodup
    ∧ (∀ kv ∈ psW, ((kv.2.settings.getD []).map Prod.fst).Nodup)
    ∧ (∀ k ∈ orderW, k ∈ keysOf psW)
    ∧ (∀ k ∈ keysOf psW, k ∈ orderW)
    ∧ (∀ k ∈ activeW, k ∈ keysOf psW)
    ∧ load_settings psW (.valid (save_settings psW orderW activeW)) =
        .ok (psW, ⟨orderW, activeW, [], activeW, []⟩, true) :=
  ⟨by decide, by decide, by decide, by decide, by decide,
   (settings_persistence_roundtrip psW orderW activeW
     (by decide) (by decide) (by decide) (by decide) (by decide)).2.2.2⟩

/-- C10: calling `change_settings` with an undeclared setting key while
`enabled = true` still invokes the before-callback (when present), then
the `KeyError` from the decode step propagates: nothing is stored and the
after-callback is never invoked, so the operation is not atomic on
error. -/
theorem change_settings_unknown_key (p : Pipeline) (key : String) (v : ℚ)
    (h : mapLookup p.mappings key = none) :
    change_settings p true key v =
      ((if p.callbacks.hasBeforeChangeSettings
          then [SettingsEvent.beforeCB key v] else []), none) := by
  unfold change_settings
  simp only [h, Bool.true_and]

/-- C10, witness: on the gamma pipeline an unknown key triggers the
before-callback and then the failure, with no store and no
after-callback. -/
theorem change_settings_unknown_key_witness :
    mapLookup gammaPipeline.mappings "missing" = none
    ∧ change_settings gammaPipeline true "missing" 1
      = ([SettingsEvent.beforeCB "missing" 1], none) := by
  refine ⟨rfl, ?_⟩
  have h := change_settings_unknown_key gammaPipeline "missing" 1 rfl
  rw [h]
  rfl

end PyHook
